import Mathlib

/-!
Shallow embedding of `chrome/browser/usb/usb_service.cc` (UsbService):
the libusb-backed device registry, enumeration engine, vendor/product
matching, the ChromeOS permission-broker gate around `FindDevices`, and
the shutdown guards.

Conventions of the embedding:
* a `PlatformUsbDevice` (a `libusb_device*`) is a `Nat` (the pointer value);
* a native `libusb_device_handle*` is a `Nat`;
* the libusb backend is a record of the primitives the file calls
  (`libusb_get_device_list`, `libusb_open`, `libusb_get_device_descriptor`,
  `libusb_get_device`), each fallible ones returning `Option`;
* libusb's per-device reference counts are a map `Nat → Int`, and
  `libusb_ref_device` / `libusb_unref_device` act on it;
* `uint16` vendor/product ids are `Nat`s (no arithmetic is performed on
  them, only equality, so no modular reduction arises);
* effects the claims speak about (backend `open` calls, `libusb_close`
  calls, callback invocations, warnings logged, enumeration attempts) are
  returned as explicit counters/flags.
-/

/-- One physical device as libusb exposes it: a `libusb_device*` value. -/
abbrev PlatformUsbDevice := Nat

/-- A native `libusb_device_handle*` value. -/
abbrev NativeHandle := Nat

/-- The `UsbDeviceHandle` wrapper created by `LookupOrCreateDevice`
(`new UsbDeviceHandle(this, handle)`): `id` is the instance identity of the
heap object (fresh at each `new`), `handle` the native libusb handle it
wraps. -/
structure UsbDeviceHandle where
  id : Nat
  handle : NativeHandle
deriving DecidableEq, Repr

/-- The libusb backend primitives `usb_service.cc` calls, as an oracle:
`deviceList` is what `libusb_get_device_list` yields (`none` models a
negative return count), `openResult` what `libusb_open` yields for a device
(`none` models a nonzero error return), `descriptor` what
`libusb_get_device_descriptor` yields (`(idVendor, idProduct)`, `none`
models a nonzero error return), and `deviceOf` is `libusb_get_device`
mapping a native handle back to its device. -/
structure Backend where
  deviceList : Option (List PlatformUsbDevice)
  openResult : PlatformUsbDevice → Option NativeHandle
  descriptor : PlatformUsbDevice → Option (Nat × Nat)
  deviceOf : NativeHandle → PlatformUsbDevice

/-- libusb's internal per-device reference counts. -/
abbrev RefCounts := PlatformUsbDevice → Int

/-- `libusb_ref_device(d)`: adds one reference to `d`. -/
def libusbRefDevice (c : RefCounts) (d : PlatformUsbDevice) : RefCounts :=
  fun x => if x = d then c x + 1 else c x

/-- `libusb_unref_device(d)`: removes one reference from `d`. -/
def libusbUnrefDevice (c : RefCounts) (d : PlatformUsbDevice) : RefCounts :=
  fun x => if x = d then c x - 1 else c x

/-- `RefCountedPlatformUsbDevice::RefCountedPlatformUsbDevice(device)`:
the constructor stores the device and calls `libusb_ref_device`. -/
def tokenCtor (c : RefCounts) (d : PlatformUsbDevice) : RefCounts :=
  libusbRefDevice c d

/-- The copy constructor
`RefCountedPlatformUsbDevice(const RefCountedPlatformUsbDevice&)`:
copies the device and calls `libusb_ref_device`. -/
def tokenCopy (c : RefCounts) (d : PlatformUsbDevice) : RefCounts :=
  libusbRefDevice c d

/-- `RefCountedPlatformUsbDevice::~RefCountedPlatformUsbDevice()`:
calls `libusb_unref_device`. -/
def tokenDtor (c : RefCounts) (d : PlatformUsbDevice) : RefCounts :=
  libusbUnrefDevice c d

/-- The mutable members of `UsbService`: the registry map `devices_`
(`std::map<PlatformUsbDevice, scoped_refptr<UsbDeviceHandle>>`, as an
association list with unique keys), a counter giving fresh instance
identities for `new UsbDeviceHandle`, whether `context_` is non-NULL
(`Shutdown` sets `context_ = NULL`), the raw pointer value of
`event_handler_` (`0` is NULL) and whether the pointed-to handler object
is still alive (`Shutdown` calls `delete event_handler_` without changing
the pointer member). -/
structure UsbServiceState where
  devices_ : List (PlatformUsbDevice × UsbDeviceHandle)
  nextId : Nat
  contextAlive : Bool
  eventHandlerPtr : Nat
  eventHandlerAlive : Bool
deriving DecidableEq, Repr

/-- `ContainsKey`/`operator[]` on the `devices_` map: the handle tracked
for a device, if any. -/
def lookupKey (m : List (PlatformUsbDevice × UsbDeviceHandle))
    (k : PlatformUsbDevice) : Option UsbDeviceHandle :=
  match m with
  | [] => none
  | (k2, v) :: rest => if k = k2 then some v else lookupKey rest k

/-- `devices_.erase(platform_device)`: removes the entry for the key. -/
def eraseKey (m : List (PlatformUsbDevice × UsbDeviceHandle))
    (k : PlatformUsbDevice) : List (PlatformUsbDevice × UsbDeviceHandle) :=
  m.filter (fun e => e.1 ≠ k)

/-- `UsbService::UsbService()`: `libusb_init(&context_)` and
`event_handler_ = new UsbEventHandler(context_)`; `handlerPtr` is the
(non-null in reality) address `new` returned. -/
def usbServiceConstruct (handlerPtr : Nat) : UsbServiceState :=
  { devices_ := []
    nextId := 0
    contextAlive := true
    eventHandlerPtr := handlerPtr
    eventHandlerAlive := true }

/-- `UsbService::Shutdown()`: `event_handler_->Stop(); delete
event_handler_;` (the pointer member `event_handler_` keeps its value),
then `libusb_exit(context_); context_ = NULL;`. -/
def shutdown (s : UsbServiceState) : UsbServiceState :=
  { s with eventHandlerAlive := false, contextAlive := false }

/-- The guard `DCHECK(event_handler_)` in `FindDevices` and `CloseDevice`:
it tests only that the pointer value is non-null. -/
def dcheckEventHandlerPasses (s : UsbServiceState) : Bool :=
  s.eventHandlerPtr ≠ 0

/-- Result of `UsbService::LookupOrCreateDevice`: the returned wrapper
(`NULL` on open failure), the service state after the call, and how many
`libusb_open` calls were made. -/
structure LookupResult where
  wrapper : Option UsbDeviceHandle
  state : UsbServiceState
  opens : Nat
deriving DecidableEq, Repr

/-- `UsbService::LookupOrCreateDevice(device)`: if `devices_` does not
contain the key, call `libusb_open`; on failure `LOG(WARNING)` and return
NULL; on success store `new UsbDeviceHandle(this, handle)` under the key.
Finally return `devices_[device].get()`. -/
def lookupOrCreateDevice (b : Backend) (s : UsbServiceState)
    (device : PlatformUsbDevice) : LookupResult :=
  match lookupKey s.devices_ device with
  | some w => { wrapper := some w, state := s, opens := 0 }
  | none =>
    match b.openResult device with
    | none => { wrapper := none, state := s, opens := 1 }
    | some handle =>
      let wrapper : UsbDeviceHandle := { id := s.nextId, handle := handle }
      { wrapper := some wrapper
        state := { s with devices_ := (device, wrapper) :: s.devices_
                          nextId := s.nextId + 1 }
        opens := 1 }

/-- A sequence of `n` `LookupOrCreateDevice` calls on the same device:
the wrapper each call returned, the final state, and the total number of
`libusb_open` calls made over the whole sequence. -/
structure SeqResult where
  results : List (Option UsbDeviceHandle)
  state : UsbServiceState
  opens : Nat
deriving DecidableEq, Repr

/-- Run `LookupOrCreateDevice` `n` times on the same device, threading the
service state. -/
def lookupSeq (b : Backend) (s : UsbServiceState) (device : PlatformUsbDevice) :
    Nat → SeqResult
  | 0 => { results := [], state := s, opens := 0 }
  | n + 1 =>
    let r := lookupOrCreateDevice b s device
    let rest := lookupSeq b r.state device n
    { results := r.wrapper :: rest.results
      state := rest.state
      opens := r.opens + rest.opens }

/-- Result of `UsbService::CloseDevice`: the state after the call, how
many `libusb_close` calls were made, and whether the "device we're not
tracking" warning was logged. -/
structure CloseResult where
  state : UsbServiceState
  closes : Nat
  warned : Bool
deriving DecidableEq, Repr

/-- `UsbService::CloseDevice(device)`: `platform_device =
libusb_get_device(device->handle())`; if `devices_` does not contain it,
`LOG(WARNING)` and return; otherwise `devices_.erase(platform_device)` and
`libusb_close(device->handle())`. -/
def closeDevice (b : Backend) (s : UsbServiceState) (h : UsbDeviceHandle) :
    CloseResult :=
  let platform_device := b.deviceOf h.handle
  match lookupKey s.devices_ platform_device with
  | none => { state := s, closes := 0, warned := true }
  | some _ =>
    { state := { s with devices_ := eraseKey s.devices_ platform_device }
      closes := 1
      warned := false }

/-- `UsbService::DeviceMatches(device, vendor_id, product_id)`: if
`libusb_get_device_descriptor` fails, return false; else compare
`idVendor`/`idProduct` for equality. -/
def deviceMatches (b : Backend) (device : PlatformUsbDevice)
    (vendor_id product_id : Nat) : Bool :=
  match b.descriptor device with
  | none => false
  | some desc => desc.1 = vendor_id && desc.2 = product_id

/-- `UsbService::EnumerateDevicesImpl(output)`: clear the output; call
`libusb_get_device_list` (each returned entry carries one list reference;
a negative count means failure and yields the empty snapshot); for each
device `libusb_ref_device(device)` then
`output->push_back(RefCountedPlatformUsbDevice(device))` — the temporary
token's constructor takes a reference, the copy placed in the vector takes
a reference, the temporary's destructor drops one; finally
`libusb_free_device_list(devices, true)` drops each list reference.
Returns the devices now held by the output vector's tokens and the
resulting reference counts. -/
def enumerateDevicesImpl (b : Backend) (c : RefCounts) :
    List PlatformUsbDevice × RefCounts :=
  match b.deviceList with
  | none => ([], c)
  | some devs =>
    let c1 := devs.foldl libusbRefDevice c
    let c2 := devs.foldl
      (fun c d => tokenDtor (tokenCopy (tokenCtor (libusbRefDevice c d) d) d) d) c1
    let c3 := devs.foldl libusbUnrefDevice c2
    (devs, c3)

/-- Destruction of a `DeviceVector` snapshot at scope exit: each held
token's destructor runs (`~RefCountedPlatformUsbDevice`). -/
def destroyDeviceVector (devs : List PlatformUsbDevice) (c : RefCounts) :
    RefCounts :=
  devs.foldl tokenDtor c

/-- Result of `UsbService::EnumerateDevices`: the handles pushed into the
caller's vector, the state after the call, the reference counts after the
snapshot is destroyed, and whether the backend was invoked while
`context_` was NULL (the function calls `EnumerateDevicesImpl`, hence
`libusb_get_device_list(context_, ...)`, with no aliveness guard). -/
structure EnumerateResult where
  out : List UsbDeviceHandle
  state : UsbServiceState
  counts : RefCounts
  usedNullContext : Bool

/-- One step of the `EnumerateDevices` loop body:
`LookupOrCreateDevice(device)`, pushing the wrapper if non-NULL. -/
def enumerateStep (b : Backend) (acc : List UsbDeviceHandle × UsbServiceState)
    (device : PlatformUsbDevice) : List UsbDeviceHandle × UsbServiceState :=
  let r := lookupOrCreateDevice b acc.2 device
  match r.wrapper with
  | some w => (acc.1 ++ [w], r.state)
  | none => (acc.1, r.state)

/-- `UsbService::EnumerateDevices(devices)`: `devices->clear()`;
`EnumerateDevicesImpl(&enumerated_devices)`; for each enumerated device
`LookupOrCreateDevice` and push the wrapper if non-NULL. There is no
`DCHECK(event_handler_)` or context guard on this path. -/
def enumerateDevices (b : Backend) (s : UsbServiceState) (c : RefCounts) :
    EnumerateResult :=
  let e := enumerateDevicesImpl b c
  let r := e.1.foldl (enumerateStep b) ([], s)
  { out := r.1
    state := r.2
    counts := destroyDeviceVector e.1 e.2
    usedNullContext := !s.contextAlive }

/-- Result of a `FindDevices`/`FindDevicesImpl` request: the final
contents of the caller's `devices` vector, the state after the request,
the reference counts after the snapshot is destroyed, how many times the
caller's completion callback ran, how many `libusb_open` calls were made,
and how many `libusb_get_device_list` enumeration attempts were made. -/
structure FindResult where
  out : List UsbDeviceHandle
  state : UsbServiceState
  counts : RefCounts
  callbackRuns : Nat
  opens : Nat
  enumerations : Nat

/-- One step of the `FindDevicesImpl` loop body: if
`DeviceMatches(device, vendor_id, product_id)` then
`LookupOrCreateDevice(device)`, pushing the wrapper if non-NULL; the
running `libusb_open` count is threaded through. -/
def findStep (b : Backend) (vendor_id product_id : Nat)
    (acc : List UsbDeviceHandle × UsbServiceState × Nat)
    (device : PlatformUsbDevice) : List UsbDeviceHandle × UsbServiceState × Nat :=
  if deviceMatches b device vendor_id product_id then
    let r := lookupOrCreateDevice b acc.2.1 device
    match r.wrapper with
    | some w => (acc.1 ++ [w], r.state, acc.2.2 + r.opens)
    | none => (acc.1, r.state, acc.2.2 + r.opens)
  else acc

/-- `UsbService::FindDevicesImpl(vendor_id, product_id, devices, callback,
success)`: `base::ScopedClosureRunner run_callback(callback)` runs the
callback exactly once on every exit path; `devices->clear()`; if
`!success` return (no enumeration, no opens); otherwise
`EnumerateDevicesImpl`, then for each device in the snapshot match and
`LookupOrCreateDevice`; the snapshot's tokens are destroyed at scope
exit. -/
def findDevicesImpl (b : Backend) (s : UsbServiceState) (c : RefCounts)
    (vendor_id product_id : Nat) (success : Bool) : FindResult :=
  if success then
    let e := enumerateDevicesImpl b c
    let r := e.1.foldl (findStep b vendor_id product_id) ([], s, 0)
    { out := r.1
      state := r.2.1
      counts := destroyDeviceVector e.1 e.2
      callbackRuns := 1
      opens := r.2.2
      enumerations := 1 }
  else
    { out := []
      state := s
      counts := c
      callbackRuns := 1
      opens := 0
      enumerations := 0 }

/-- The platform configuration `FindDevices` branches on: whether the
build defines `OS_CHROMEOS`, whether `base::chromeos::IsRunningOnChromeOS()`
holds, whether `GetPermissionBrokerClient()` returns a client, and the
`success` boolean the broker eventually passes to the bound completion
(`RequestUsbAccess` invokes its callback exactly once). -/
structure Platform where
  osChromeOS : Bool
  runningOnChromeOS : Bool
  permissionBrokerClient : Option Unit
  brokerGrant : Bool

/-- `UsbService::FindDevices(vendor_id, product_id, interface_id, devices,
callback)`: on a ChromeOS build running on ChromeOS, fetch the permission
broker client; if it is NULL, `callback.Run()` and return — the `devices`
vector is not touched on this path; otherwise `RequestUsbAccess` binds
`FindDevicesImpl` as the completion, which the broker invokes exactly once
with its grant result. On every other configuration,
`FindDevicesImpl(..., true)` directly. `devices0` is the caller's vector
as passed in. -/
def findDevices (p : Platform) (b : Backend) (s : UsbServiceState)
    (c : RefCounts) (vendor_id product_id interface_id : Nat)
    (devices0 : List UsbDeviceHandle) : FindResult :=
  if p.osChromeOS && p.runningOnChromeOS then
    match p.permissionBrokerClient with
    | none =>
      { out := devices0
        state := s
        counts := c
        callbackRuns := 1
        opens := 0
        enumerations := 0 }
    | some _ => findDevicesImpl b s c vendor_id product_id p.brokerGrant
  else findDevicesImpl b s c vendor_id product_id true

/-! ## Concrete fixtures used by witnesses and counterexamples -/

/-- A freshly constructed service (empty registry, live context, non-null
event handler pointer). -/
def liveState : UsbServiceState := usbServiceConstruct 1

/-- A service tracking device `5` under wrapper `⟨0, 7⟩`. -/
def trackedState : UsbServiceState :=
  { devices_ := [(5, ⟨0, 7⟩)]
    nextId := 1
    contextAlive := true
    eventHandlerPtr := 1
    eventHandlerAlive := true }

/-- A backend exposing device `5`; `libusb_open` always succeeds with
native handle `7`, the descriptor of device `5` is `(10, 11)`, and
`libusb_get_device` maps handle `7` back to device `5`. -/
def wBackend : Backend :=
  { deviceList := some [5]
    openResult := fun _ => some 7
    descriptor := fun d => if d = 5 then some (10, 11) else none
    deviceOf := fun h => if h = 7 then 5 else 0 }

/-- A backend whose `libusb_open` always fails. -/
def failBackend : Backend :=
  { deviceList := some [5]
    openResult := fun _ => none
    descriptor := fun _ => none
    deviceOf := fun _ => 0 }

/-- Reference counts where every device holds exactly one reference. -/
def oneCounts : RefCounts := fun _ => 1

/-- A ChromeOS platform whose permission broker client is unobtainable. -/
def brokerlessPlatform : Platform :=
  { osChromeOS := true
    runningOnChromeOS := true
    permissionBrokerClient := none
    brokerGrant := true }

/-! ## C10: DeviceMatches -/

/-- C10. `DeviceMatches` returns `false` when the backend descriptor read
fails, and otherwise returns `true` exactly when the descriptor's
`idVendor` equals `vendor_id` and its `idProduct` equals `product_id`
(exact equality of the 16-bit identity fields, no wildcards). -/
theorem deviceMatches_exact (b : Backend) (device : PlatformUsbDevice)
    (vendor_id product_id : Nat) :
    deviceMatches b device vendor_id product_id = true ↔
      ∃ dv dp, b.descriptor device = some (dv, dp) ∧
        dv = vendor_id ∧ dp = product_id := by
  unfold deviceMatches
  cases hd : b.descriptor device with
  | none => simp
  | some desc =>
    rcases desc with ⟨dv, dp⟩
    simp only [Bool.and_eq_true, decide_eq_true_eq, Option.some.injEq,
      Prod.mk.injEq]
    constructor
    · rintro ⟨h1, h2⟩; exact ⟨dv, dp, ⟨rfl, rfl⟩, h1, h2⟩
    · rintro ⟨a, b2, ⟨ha, hb⟩, h1, h2⟩; subst ha; subst hb; exact ⟨h1, h2⟩

/-! ## C5: denied grant -/

/-- C5. A `FindDevicesImpl` request completed with `success = false`
delivers the empty sequence, performs no backend `libusb_open` call (and
no enumeration), and still runs the completion callback. -/
theorem findDevicesImpl_denied (b : Backend) (s : UsbServiceState)
    (c : RefCounts) (vendor_id product_id : Nat) :
    (findDevicesImpl b s c vendor_id product_id false).out = [] ∧
    (findDevicesImpl b s c vendor_id product_id false).opens = 0 ∧
    (findDevicesImpl b s c vendor_id product_id false).enumerations = 0 ∧
    (findDevicesImpl b s c vendor_id product_id false).callbackRuns = 1 :=
  ⟨rfl, rfl, rfl, rfl⟩

/-! ## C6: completion callback exactly once -/

/-- C6. On every path through `FindDevices` — ChromeOS with an absent
broker client, ChromeOS with a broker that grants or denies, or a platform
without the broker gate — the caller's completion callback runs exactly
once. -/
theorem findDevices_callback_once (p : Platform) (b : Backend)
    (s : UsbServiceState) (c : RefCounts)
    (vendor_id product_id interface_id : Nat)
    (devices0 : List UsbDeviceHandle) :
    (findDevices p b s c vendor_id product_id interface_id
      devices0).callbackRuns = 1 := by
  rcases p with ⟨os, run, client, grant⟩
  cases os <;> cases run <;> rcases client with _ | _ <;> cases grant <;> rfl

/-! ## C7: failed open leaves the registry untouched -/

/-- C7. When the device is not tracked and the backend `libusb_open`
fails, `LookupOrCreateDevice` returns NULL and leaves the service state —
in particular the `devices_` map — unchanged. -/
theorem lookupOrCreateDevice_open_fails (b : Backend) (s : UsbServiceState)
    (device : PlatformUsbDevice)
    (huntracked : lookupKey s.devices_ device = none)
    (hfail : b.openResult device = none) :
    (lookupOrCreateDevice b s device).wrapper = none ∧
    (lookupOrCreateDevice b s device).state = s := by
  simp [lookupOrCreateDevice, huntracked, hfail]

/-- Witness for C7 at a concrete untracked device and failing backend. -/
theorem lookupOrCreateDevice_open_fails_witness :
    (lookupOrCreateDevice failBackend liveState 0).wrapper = none ∧
    (lookupOrCreateDevice failBackend liveState 0).state = liveState :=
  lookupOrCreateDevice_open_fails failBackend liveState 0 rfl rfl

/-! ## C8: closing an untracked device -/

/-- C8. `CloseDevice` on a handle whose underlying device is not in the
`devices_` map logs the warning and is a no-op: the state is unchanged and
`libusb_close` is not invoked. -/
theorem closeDevice_untracked (b : Backend) (s : UsbServiceState)
    (h : UsbDeviceHandle)
    (huntracked : lookupKey s.devices_ (b.deviceOf h.handle) = none) :
    (closeDevice b s h).state = s ∧
    (closeDevice b s h).closes = 0 ∧
    (closeDevice b s h).warned = true := by
  simp [closeDevice, huntracked]

/-- Witness for C8 at a concrete untracked handle. -/
theorem closeDevice_untracked_witness :
    (closeDevice wBackend liveState ⟨0, 7⟩).state = liveState ∧
    (closeDevice wBackend liveState ⟨0, 7⟩).closes = 0 ∧
    (closeDevice wBackend liveState ⟨0, 7⟩).warned = true :=
  closeDevice_untracked wBackend liveState ⟨0, 7⟩ rfl

/-! ## C2: the post-shutdown guards -/

/-- C2 (code bug). `Shutdown` deletes the event handler but never nulls
the `event_handler_` pointer member, so the `DCHECK(event_handler_)` guard
in `FindDevices`/`CloseDevice` still passes after shutdown — it cannot
distinguish the post-shutdown state from the live state — and
`EnumerateDevices`, which has no guard at all, proceeds to call the
backend with the torn-down (`NULL`) `context_`. -/
theorem shutdown_guard_ineffective (b : Backend) (c : RefCounts) (ptr : Nat)
    (hptr : ptr ≠ 0) :
    dcheckEventHandlerPasses (shutdown (usbServiceConstruct ptr)) = true ∧
    (shutdown (usbServiceConstruct ptr)).eventHandlerAlive = false ∧
    (shutdown (usbServiceConstruct ptr)).contextAlive = false ∧
    (enumerateDevices b (shutdown (usbServiceConstruct ptr))
      c).usedNullContext = true := by
  refine ⟨?_, rfl, rfl, rfl⟩
  simp [dcheckEventHandlerPasses, shutdown, usbServiceConstruct, hptr]

/-- Witness for C2: a concrete service shut down and then enumerated. -/
theorem shutdown_guard_ineffective_witness :
    dcheckEventHandlerPasses (shutdown (usbServiceConstruct 1)) = true ∧
    (shutdown (usbServiceConstruct 1)).eventHandlerAlive = false ∧
    (shutdown (usbServiceConstruct 1)).contextAlive = false ∧
    (enumerateDevices wBackend (shutdown (usbServiceConstruct 1))
      oneCounts).usedNullContext = true :=
  shutdown_guard_ineffective wBackend oneCounts 1 (by decide)

/-! ## C3: broker required but unreachable -/

/-- C3 (counterexample). When the ChromeOS permission broker client cannot
be obtained, `FindDevices` runs the callback and returns without touching
the caller's `devices` vector: a caller that passed a non-empty vector
receives it back unchanged, so the delivered result is not the empty
sequence. -/
theorem findDevices_broker_unreachable_not_cleared :
    (findDevices brokerlessPlatform wBackend liveState oneCounts
      1 2 3 [⟨0, 7⟩]).out = [⟨0, 7⟩] ∧
    (findDevices brokerlessPlatform wBackend liveState oneCounts
      1 2 3 [⟨0, 7⟩]).out ≠ [] :=
  ⟨rfl, by decide⟩

/-- C3 (amended). When the broker is required but its client cannot be
obtained, `FindDevices` runs the completion callback exactly once and
returns immediately — no enumeration is attempted, no backend open occurs,
and the service state is unchanged — but the output vector is left exactly
as the caller passed it in (it is not cleared). -/
theorem findDevices_broker_unreachable (p : Platform) (b : Backend)
    (s : UsbServiceState) (c : RefCounts)
    (vendor_id product_id interface_id : Nat)
    (devices0 : List UsbDeviceHandle)
    (hos : p.osChromeOS = true) (hrun : p.runningOnChromeOS = true)
    (hclient : p.permissionBrokerClient = none) :
    (findDevices p b s c vendor_id product_id interface_id devices0).out
      = devices0 ∧
    (findDevices p b s c vendor_id product_id interface_id
      devices0).callbackRuns = 1 ∧
    (findDevices p b s c vendor_id product_id interface_id
      devices0).enumerations = 0 ∧
    (findDevices p b s c vendor_id product_id interface_id
      devices0).opens = 0 ∧
    (findDevices p b s c vendor_id product_id interface_id
      devices0).state = s := by
  simp [findDevices, hos, hrun, hclient]

/-- Witness for C3's amended statement at the concrete broker-less
platform. -/
theorem findDevices_broker_unreachable_witness :
    (findDevices brokerlessPlatform failBackend liveState oneCounts
      1 2 3 [⟨2, 9⟩]).out = [⟨2, 9⟩] ∧
    (findDevices brokerlessPlatform failBackend liveState oneCounts
      1 2 3 [⟨2, 9⟩]).callbackRuns = 1 ∧
    (findDevices brokerlessPlatform failBackend liveState oneCounts
      1 2 3 [⟨2, 9⟩]).enumerations = 0 ∧
    (findDevices brokerlessPlatform failBackend liveState oneCounts
      1 2 3 [⟨2, 9⟩]).opens = 0 ∧
    (findDevices brokerlessPlatform failBackend liveState oneCounts
      1 2 3 [⟨2, 9⟩]).state = liveState :=
  findDevices_broker_unreachable brokerlessPlatform failBackend liveState
    oneCounts 1 2 3 [⟨2, 9⟩] rfl rfl rfl

/-! ## C9: close evicts, reopen is fresh -/

/-- After `erase`, the erased key has no entry. -/
theorem lookupKey_eraseKey (m : List (PlatformUsbDevice × UsbDeviceHandle))
    (k : PlatformUsbDevice) : lookupKey (eraseKey m k) k = none := by
  induction m with
  | nil => rfl
  | cons e rest ih =>
    rcases e with ⟨k2, v⟩
    by_cases hk : k2 = k
    · simpa [eraseKey, List.filter_cons, hk] using ih
    · have he : eraseKey ((k2, v) :: rest) k = (k2, v) :: eraseKey rest k := by
        simp [eraseKey, List.filter_cons, hk]
      rw [he]
      simpa [lookupKey, Ne.symm hk] using ih

/-- C9. After `CloseDevice` on a tracked handle, the underlying identity
is absent from the `devices_` map, and a subsequent `LookupOrCreateDevice`
on that identity reaches the backend `libusb_open` (one fresh open call,
not a cache hit). -/
theorem closeDevice_evicts_then_fresh_open (b : Backend)
    (s : UsbServiceState) (h : UsbDeviceHandle) (pd : PlatformUsbDevice)
    (w : UsbDeviceHandle)
    (hpd : b.deviceOf h.handle = pd)
    (htracked : lookupKey s.devices_ pd = some w) :
    lookupKey (closeDevice b s h).state.devices_ pd = none ∧
    (lookupOrCreateDevice b (closeDevice b s h).state pd).opens = 1 := by
  have h1 : (closeDevice b s h).state
      = { s with devices_ := eraseKey s.devices_ pd } := by
    simp [closeDevice, hpd, htracked]
  rw [h1]
  refine ⟨lookupKey_eraseKey s.devices_ pd, ?_⟩
  unfold lookupOrCreateDevice
  rw [show ({ s with devices_ := eraseKey s.devices_ pd } :
      UsbServiceState).devices_ = eraseKey s.devices_ pd from rfl,
    lookupKey_eraseKey]
  cases b.openResult pd <;> rfl

/-- Witness for C9: closing the tracked device `5` and looking it up
again. -/
theorem closeDevice_evicts_then_fresh_open_witness :
    lookupKey (closeDevice wBackend trackedState ⟨0, 7⟩).state.devices_ 5
      = none ∧
    (lookupOrCreateDevice wBackend
      (closeDevice wBackend trackedState ⟨0, 7⟩).state 5).opens = 1 :=
  closeDevice_evicts_then_fresh_open wBackend trackedState ⟨0, 7⟩ 5 ⟨0, 7⟩
    rfl rfl

/-! ## C1: at most one open per identity -/

/-- From a state already tracking the device, every `LookupOrCreateDevice`
call in a sequence is a cache hit: the tracked wrapper is returned each
time, no `libusb_open` occurs, and the state never changes. -/
theorem lookupSeq_tracked (b : Backend) (s : UsbServiceState)
    (device : PlatformUsbDevice) (w : UsbDeviceHandle)
    (htracked : lookupKey s.devices_ device = some w) (n : Nat) :
    lookupSeq b s device n
      = { results := List.replicate n (some w), state := s, opens := 0 } := by
  induction n with
  | zero => rfl
  | succ m ih =>
    simp [lookupSeq, lookupOrCreateDevice, htracked, ih, List.replicate_succ]

/-- C1 (counterexample). Two `LookupOrCreateDevice` calls on the same
untracked device against a backend whose `libusb_open` fails perform two
backend open calls: a failed open caches nothing, so "at most one backend
open call per identity over any call sequence" is false. -/
theorem lookupSeq_two_failed_opens :
    ¬ (lookupSeq failBackend liveState 0 2).opens ≤ 1 := by decide

/-- C1 (amended). Over any sequence of `LookupOrCreateDevice` calls on the
same device, if the backend's `libusb_open` succeeds for that device then
at most one backend open call occurs in total and every call returns the
same wrapper instance; only failed open attempts can repeat. -/
theorem lookupSeq_single_open (b : Backend) (s : UsbServiceState)
    (device : PlatformUsbDevice) (n : Nat)
    (hopen : (b.openResult device).isSome = true) :
    ∃ w, (lookupSeq b s device n).results = List.replicate n (some w) ∧
      (lookupSeq b s device n).opens ≤ 1 := by
  obtain ⟨handle, hh⟩ := Option.isSome_iff_exists.mp hopen
  cases htr : lookupKey s.devices_ device with
  | some w =>
    refine ⟨w, ?_, ?_⟩ <;> rw [lookupSeq_tracked b s device w htr n] <;> simp
  | none =>
    cases n with
    | zero => exact ⟨⟨s.nextId, handle⟩, rfl, by simp [lookupSeq]⟩
    | succ m =>
      refine ⟨⟨s.nextId, handle⟩, ?_, ?_⟩ <;>
      · have hfirst : lookupOrCreateDevice b s device
            = { wrapper := some ⟨s.nextId, handle⟩
                state := { s with
                  devices_ := (device, ⟨s.nextId, handle⟩) :: s.devices_
                  nextId := s.nextId + 1 }
                opens := 1 } := by
          simp [lookupOrCreateDevice, htr, hh]
        have htr2 : lookupKey ({ s with
            devices_ := (device, ⟨s.nextId, handle⟩) :: s.devices_
            nextId := s.nextId + 1 } : UsbServiceState).devices_ device
            = some ⟨s.nextId, handle⟩ := by
          simp [lookupKey]
        simp [lookupSeq, hfirst,
          lookupSeq_tracked b _ device ⟨s.nextId, handle⟩ htr2 m,
          List.replicate_succ]

/-- Witness for C1's amended statement: three calls against a succeeding
backend. -/
theorem lookupSeq_single_open_witness :
    ∃ w, (lookupSeq wBackend liveState 5 3).results
        = List.replicate 3 (some w) ∧
      (lookupSeq wBackend liveState 5 3).opens ≤ 1 :=
  lookupSeq_single_open wBackend liveState 5 3 rfl

/-! ## C4: reference-count balance of an enumeration snapshot -/

/-- Evaluating a fold of pointwise reference-count updates: a step that
adds `k` at its device and leaves every other count alone contributes
`k` per occurrence. -/
theorem foldl_pointwise (k : Int) (f : RefCounts → PlatformUsbDevice → RefCounts)
    (hf : ∀ c d x, f c d x = c x + (if x = d then k else 0)) :
    ∀ (l : List PlatformUsbDevice) (c : RefCounts) (x : PlatformUsbDevice),
      (l.foldl f c) x = c x + k * l.count x := by
  intro l
  induction l with
  | nil => intro c x; simp
  | cons a t ih =>
    intro c x
    rw [List.foldl_cons, ih, hf]
    rcases eq_or_ne x a with hx | hx
    · subst hx
      simp [List.count_cons]
      ring
    · simp [List.count_cons, hx]

/-- `libusb_ref_device` adds one reference at its device. -/
theorem libusbRefDevice_eval (c : RefCounts) (d x : PlatformUsbDevice) :
    libusbRefDevice c d x = c x + (if x = d then 1 else 0) := by
  unfold libusbRefDevice
  split_ifs <;> simp

/-- `libusb_unref_device` removes one reference at its device. -/
theorem libusbUnrefDevice_eval (c : RefCounts) (d x : PlatformUsbDevice) :
    libusbUnrefDevice c d x = c x + (if x = d then -1 else 0) := by
  unfold libusbUnrefDevice
  split_ifs <;> ring

/-- A token destructor removes one reference at its device. -/
theorem tokenDtor_eval (c : RefCounts) (d x : PlatformUsbDevice) :
    tokenDtor c d x = c x + (if x = d then -1 else 0) :=
  libusbUnrefDevice_eval c d x

/-- The per-device body of the `EnumerateDevicesImpl` loop — explicit
`libusb_ref_device`, token construction, copy into the vector, and the
temporary's destruction — has net effect `+2` at its device. -/
theorem enumerateLoopBody_eval (c : RefCounts) (d x : PlatformUsbDevice) :
    tokenDtor (tokenCopy (tokenCtor (libusbRefDevice c d) d) d) d x
      = c x + (if x = d then 2 else 0) := by
  unfold tokenDtor tokenCopy tokenCtor libusbUnrefDevice libusbRefDevice
  split_ifs <;> ring

/-- C4 (counterexample). With one device holding one pre-enumeration
reference, running `EnumerateDevicesImpl` and then destroying every token
of the snapshot leaves the device at two references, not its
pre-enumeration value: the extra explicit `libusb_ref_device` taken in the
loop (before `push_back`) is never released. -/
theorem enumerate_refcount_leak :
    destroyDeviceVector (enumerateDevicesImpl failBackend oneCounts).1
      (enumerateDevicesImpl failBackend oneCounts).2 5 = 2 ∧
    oneCounts 5 = 1 ∧
    destroyDeviceVector (enumerateDevicesImpl failBackend oneCounts).1
      (enumerateDevicesImpl failBackend oneCounts).2 5 ≠ oneCounts 5 := by
  refine ⟨by decide, rfl, by decide⟩

/-- C4 (amended). Token construction, copy and destruction are balanced —
each construction or copy adds exactly one backend reference and each
destruction removes exactly one — and `libusb_free_device_list(_, true)`
releases the enumeration list's own references; but `EnumerateDevicesImpl`
also takes one extra explicit `libusb_ref_device` per observed device that
is never released, so once all tokens of a snapshot are destroyed a
device's net reference count is its pre-enumeration value plus its number
of occurrences in the snapshot, not the pre-enumeration value itself. -/
theorem enumerate_refcount_balance (b : Backend) (c : RefCounts)
    (devs : List PlatformUsbDevice) (d : PlatformUsbDevice)
    (hlist : b.deviceList = some devs) :
    (∀ c2 d2 x, tokenDtor (tokenCtor c2 d2) d2 x = c2 x ∧
      tokenDtor (tokenCopy c2 d2) d2 x = c2 x) ∧
    destroyDeviceVector (enumerateDevicesImpl b c).1
      (enumerateDevicesImpl b c).2 d = c d + devs.count d := by
  constructor
  · intro c2 d2 x
    constructor <;>
      (simp only [tokenDtor, tokenCopy, tokenCtor, libusbUnrefDevice,
          libusbRefDevice];
        split_ifs <;> ring)
  · have hE : enumerateDevicesImpl b c
        = (devs, devs.foldl libusbUnrefDevice
            (devs.foldl (fun c d =>
                tokenDtor (tokenCopy (tokenCtor (libusbRefDevice c d) d) d) d)
              (devs.foldl libusbRefDevice c))) := by
      simp [enumerateDevicesImpl, hlist]
    rw [hE]
    dsimp only
    unfold destroyDeviceVector
    rw [foldl_pointwise (-1) tokenDtor tokenDtor_eval,
      foldl_pointwise (-1) libusbUnrefDevice libusbUnrefDevice_eval,
      foldl_pointwise 2 _ enumerateLoopBody_eval,
      foldl_pointwise 1 libusbRefDevice libusbRefDevice_eval]
    ring

/-- Witness for C4's amended statement: the concrete backend exposing
device `5` once, starting from one reference everywhere. -/
theorem enumerate_refcount_balance_witness :
    (∀ c2 d2 x, tokenDtor (tokenCtor c2 d2) d2 x = c2 x ∧
      tokenDtor (tokenCopy c2 d2) d2 x = c2 x) ∧
    destroyDeviceVector (enumerateDevicesImpl wBackend oneCounts).1
      (enumerateDevicesImpl wBackend oneCounts).2 5
      = oneCounts 5 + List.count 5 [5] :=
  enumerate_refcount_balance wBackend oneCounts [5] 5 rfl
